import Mathlib

/-!
Verification of the resilient persistence layer of the student-scheduler API.

The definitions below are a shallow embedding of the JavaScript source:

* `src/src/services/schedule-service.js` — `isAzurePausedError`,
  `ScheduleService.connectWithRetry`, `ScheduleService.executeWithRetry`,
  `ScheduleService.createSchedule`, `getUserSchedules`, `getScheduleDetails`,
  `updateSchedule`, `deleteSchedule`;
* `src/src/services/database-service.js` — `DatabaseService.isAzurePausedError`,
  `DatabaseService.executeWithRetry`;
* `src/unnamed/part_004` (database.js) — module-level `isAzurePausedError`,
  `connectWithRetry`;
* `src/src/functions/schedules/schedules.js` — the `schedules-create` handler;
* `src/setup-database.js` — the table schema (identity keys, `ON DELETE CASCADE`
  from `Schedules` to `ScheduleDetails`).

Conventions of the embedding:
* JavaScript errors become the `JsError` structure (message and code strings);
  a thrown error is an `Except.error`.
* The SQL store becomes the `DB` structure: one list of rows per table plus
  the next value of each IDENTITY column.  Timestamp columns (`CreatedAt`,
  `UpdatedAt`) and the generated default schedule label (which embeds the
  current date) are not observable by any claim and are omitted; row order and
  `ORDER BY` clauses are likewise not modelled.
* `await`ed asynchronous steps are sequenced; `sleep` calls are recorded in an
  explicit log where a claim talks about sleeping.
* Fallible queries take a fault oracle `fault : Nat → Bool`: each SQL statement
  executed by an operation consumes one index, and the statement throws when
  the oracle is true there.  The happy path is the constantly-false oracle.
* Retry loops take an outcome oracle `f : Nat → Except JsError α` giving the
  result of attempt `n` (connection plus operation), mirroring the arbitrary
  `operation` closure of the source.
* JavaScript truthiness on optional strings/numbers ("" and 0 are falsy) is
  made explicit by the `jsOr*` helpers.
-/

/-- A JavaScript error value: `error.message` and `error.code` (absent code is
the empty string). -/
structure JsError where
  message : String
  code : String
deriving Repr, DecidableEq

/-- `needle` matches at the head of `hay` (character-wise). -/
def charsStartWith : List Char → List Char → Bool
  | [], _ => true
  | _ :: _, [] => false
  | c :: cs, h :: hs => c == h && charsStartWith cs hs

/-- `needle` occurs somewhere in `hay` (character-wise substring search). -/
def charsHasSub (needle : List Char) : List Char → Bool
  | [] => needle.isEmpty
  | h :: hs => charsStartWith needle (h :: hs) || charsHasSub needle hs

/-- JavaScript `hay.includes(needle)` for strings. -/
def strIncludes (hay needle : String) : Bool :=
  charsHasSub needle.toList hay.toList

/-- JavaScript `s.includes(c)` for a single character. -/
def strContainsChar (s : String) (c : Char) : Bool :=
  s.toList.contains c

/-- ASCII lower-casing, JavaScript `s.toLowerCase()`. -/
def lowerStr (s : String) : String :=
  ⟨s.toList.map Char.toLower⟩

/-- The characters before the first occurrence of `c`. -/
def takeBeforeChar (c : Char) : List Char → List Char
  | [] => []
  | h :: hs => if h == c then [] else h :: takeBeforeChar c hs

/-- JavaScript `email.split('@')[0]`. -/
def emailLocalPart (email : String) : String :=
  ⟨takeBeforeChar '@' email.toList⟩

/-- `isAzurePausedError` from `schedule-service.js` lines 24-41: pattern-match
the error message and code against the transient connection-failure list. -/
def isAzurePausedError (e : JsError) : Bool :=
  strIncludes e.message "login failed" ||
  strIncludes e.message "ECONNRESET" ||
  strIncludes e.message "ETIMEDOUT" ||
  strIncludes e.message "ENOTFOUND" ||
  strIncludes e.message "Connection lost" ||
  strIncludes e.message "socket hang up" ||
  strIncludes e.message "Server is in paused" ||
  strIncludes e.message "Database is paused" ||
  strIncludes e.message "Database is resuming" ||
  e.code == "ESOCKET" ||
  e.code == "ECONNREFUSED" ||
  e.code == "ENETUNREACH"

/-- The transient-error pattern list shared by `database-service.js` and
`database.js` (part_004): `pausedErrorPatterns`. -/
def dbPausedPatterns : List String :=
  ["ECONNREFUSED", "ETIMEDOUT", "ESOCKET", "ENOTOPEN", "Connection lost",
   "connection is closed", "Database .* on server .* is not currently available",
   "Cannot open server", "Login failed", "Server is not found or not accessible",
   "TCP Provider", "network-related", "instance-specific error"]

/-- `isAzurePausedError` from `database-service.js` / `database.js`:
case-insensitive match of the message, case-sensitive match of the code. -/
def isDbAzurePausedError (e : JsError) : Bool :=
  dbPausedPatterns.any fun p =>
    strIncludes (lowerStr e.message) (lowerStr p) || strIncludes e.code p

/-- `retryConfig.maxRetries` (5) from `schedule-service.js` lines 13-18. -/
def retryMaxRetries : Nat := 5

/-- `retryConfig.initialDelay` (2000 ms). -/
def retryInitialDelay : Nat := 2000

/-- `retryConfig.maxDelay` (30000 ms). -/
def retryMaxDelay : Nat := 30000

/-- `retryConfig.multiplier` (2). -/
def retryMultiplier : Nat := 2

/-- Placeholder used for the (unreachable) `throw lastError` when the loop body
never ran; `maxRetries ≥ 1` makes it dead code. -/
def unreachableErr : JsError := ⟨"unreachable", ""⟩

/-- The retry loop of `ScheduleService.executeWithRetry` (lines 136-159).
`f n` is the outcome of attempt `n` (the `connectWithRetry` call followed by
`operation(pool)`); `remaining` counts the loop iterations left
(`maxRetries - attempt + 1`), and `lastError` is the variable of the same
name.  On a transient error the pool is reset and the loop continues (the
`attempt < maxRetries` test in the source only gates the sleep); on any other
error it rethrows at once; after the loop it throws `lastError`. -/
def executeWithRetryGo (f : Nat → Except JsError α) :
    Nat → Nat → Option JsError → Except JsError α
  | _, 0, lastError => .error (lastError.getD unreachableErr)
  | attempt, r + 1, _ =>
    match f attempt with
    | .ok v => .ok v
    | .error e =>
      if isAzurePausedError e then
        executeWithRetryGo f (attempt + 1) r (some e)
      else
        .error e

/-- `ScheduleService.executeWithRetry` (lines 132-163). -/
def executeWithRetry (f : Nat → Except JsError α) : Except JsError α :=
  executeWithRetryGo f 1 retryMaxRetries none

/-- The retry loop of `DatabaseService.executeWithRetry`
(`database-service.js` lines 243-271): same shape, but classification uses the
pattern list and exhaustion throws a wrapping error. -/
def dbExecuteWithRetryGo (f : Nat → Except JsError α) :
    Nat → Nat → Option JsError → Except JsError α
  | _, 0, lastError =>
    .error ⟨"Database operation failed after 5 attempts: " ++
      (lastError.getD unreachableErr).message, ""⟩
  | attempt, r + 1, _ =>
    match f attempt with
    | .ok v => .ok v
    | .error e =>
      if isDbAzurePausedError e then
        dbExecuteWithRetryGo f (attempt + 1) r (some e)
      else
        .error e

/-- `DatabaseService.executeWithRetry` (lines 239-279). -/
def dbExecuteWithRetry (f : Nat → Except JsError α) : Except JsError α :=
  dbExecuteWithRetryGo f 1 retryMaxRetries none

/-- The retry loop of `ScheduleService.connectWithRetry` (lines 91-122).
`g n` is the outcome of the `sql.connect` call on attempt `n` (the pool is a
`Nat` handle).  The second component of the result is the list of `sleep`
durations performed, in order.  The source's catch block has three branches:
transient and attempts remain — sleep `delay` then `delay = min(delay *
multiplier, maxDelay)`; attempts exhausted — break (throw `lastError`);
otherwise (a non-transient error with attempts remaining) — the same sleep and
backoff as the transient branch. -/
def connectWithRetryGo (g : Nat → Except JsError Nat) :
    Nat → Nat → Nat → Option JsError → List Nat → Except JsError Nat × List Nat
  | _, 0, _, lastError, log => (.error (lastError.getD unreachableErr), log)
  | attempt, r + 1, delay, _, log =>
    match g attempt with
    | .ok p => (.ok p, log)
    | .error e =>
      if isAzurePausedError e && decide (attempt < retryMaxRetries) then
        connectWithRetryGo g (attempt + 1) r
          (min (delay * retryMultiplier) retryMaxDelay) (some e) (log ++ [delay])
      else if retryMaxRetries ≤ attempt then
        (.error e, log)
      else
        connectWithRetryGo g (attempt + 1) r
          (min (delay * retryMultiplier) retryMaxDelay) (some e) (log ++ [delay])

/-- `ScheduleService.connectWithRetry` (lines 71-127), entered with no live
cached pool (the pool-cache / `isConnecting` preamble short-circuits before
the loop and is concurrency plumbing outside this embedding). -/
def connectWithRetry (g : Nat → Except JsError Nat) :
    Except JsError Nat × List Nat :=
  connectWithRetryGo g 1 retryMaxRetries retryInitialDelay none []

/-- The retry loop of `connectWithRetry` in `database.js` (part_004, lines
73-103): transient errors sleep the backoff delay; other errors with attempts
remaining sleep the flat `initialDelayMs` without advancing the backoff;
exhaustion throws a wrapping error. -/
def dbJsConnectWithRetryGo (g : Nat → Except JsError Nat) :
    Nat → Nat → Nat → Option JsError → List Nat → Except JsError Nat × List Nat
  | _, 0, _, lastError, log =>
    (.error ⟨"Failed to connect after 5 attempts: " ++
      (lastError.getD unreachableErr).message, ""⟩, log)
  | attempt, r + 1, delay, _, log =>
    match g attempt with
    | .ok p => (.ok p, log)
    | .error e =>
      if isDbAzurePausedError e && decide (attempt < retryMaxRetries) then
        dbJsConnectWithRetryGo g (attempt + 1) r
          (min (delay * retryMultiplier) retryMaxDelay) (some e) (log ++ [delay])
      else if decide (attempt < retryMaxRetries) then
        dbJsConnectWithRetryGo g (attempt + 1) r delay (some e)
          (log ++ [retryInitialDelay])
      else
        dbJsConnectWithRetryGo g (attempt + 1) r delay (some e) log

/-- `connectWithRetry` from `database.js` (part_004). -/
def dbJsConnectWithRetry (g : Nat → Except JsError Nat) :
    Except JsError Nat × List Nat :=
  dbJsConnectWithRetryGo g 1 retryMaxRetries retryInitialDelay none []

/-! ## Data model (`setup-database.js` schema) and request payloads -/

/-- One element of the `courses` array posted to `createSchedule` /
`updateSchedule`: a loosely-typed JS object, so every field is optional. -/
structure CourseInput where
  courseCode : Option String := none
  courseId : Option Nat := none
  id : Option Nat := none
  courseName : Option String := none
  name : Option String := none
  credits : Option Int := none
  lecturer : Option String := none
  instructor : Option String := none
  time : Option String := none
  schedule : Option String := none
  room : Option String := none
  weeks : Option String := none
  quantity : Option Int := none
  maxStudents : Option Int := none
deriving Repr, DecidableEq

/-- The `userData` object of `createSchedule` (`user` in the request body). -/
structure UserHints where
  email : Option String := none
  name : Option String := none
  studentId : Option String := none
  role : Option String := none
deriving Repr, DecidableEq

/-- A `Users` row (`UserId` IDENTITY, `Email` UNIQUE). -/
structure UserRow where
  userId : Nat
  email : String
  name : String
  studentId : Option String
  role : String
deriving Repr, DecidableEq

/-- A `Courses` row (`CourseId` IDENTITY). -/
structure CourseRow where
  courseId : Nat
  courseName : String
  courseCode : String
  credits : Int
  lecturer : Option String
  time : Option String
  room : Option String
  weeks : Option String
  quantity : Option Int
deriving Repr, DecidableEq

/-- A `Schedules` row (`ScheduleId` IDENTITY, `UserId` FK). -/
structure ScheduleRow where
  scheduleId : Nat
  userId : Nat
  scheduleName : Option String
  totalCredits : Int
deriving Repr, DecidableEq

/-- A `ScheduleDetails` row (`DetailId` IDENTITY, FKs to `Schedules` and
`Courses`, `ON DELETE CASCADE` from both). -/
structure DetailRow where
  detailId : Nat
  scheduleId : Nat
  courseId : Nat
deriving Repr, DecidableEq

/-- The relational store: the four tables plus the next value of each
IDENTITY column. -/
structure DB where
  users : List UserRow := []
  courses : List CourseRow := []
  schedules : List ScheduleRow := []
  details : List DetailRow := []
  nextUserId : Nat := 1
  nextCourseId : Nat := 1
  nextScheduleId : Nat := 1
  nextDetailId : Nat := 1
deriving Repr, DecidableEq

/-! ## JavaScript truthiness helpers (`a || b` with "" and 0 falsy) -/

/-- `a || b` where `a` is an optional string and the result must be a string. -/
def jsOrStr : Option String → String → String
  | some s, d => if s = "" then d else s
  | none, d => d

/-- `a || b` where both sides are optional strings (`b` may be `null`). -/
def jsOrStrOpt : Option String → Option String → Option String
  | some s, b => if s = "" then b else some s
  | none, b => b

/-- `a || b` on optional naturals (JS numbers used as ids; 0 is falsy). -/
def jsOrNatOpt : Option Nat → Option Nat → Option Nat
  | some n, b => if n = 0 then b else some n
  | none, b => b

/-- `a || b` on optional integers (0 is falsy). -/
def jsOrIntOpt : Option Int → Option Int → Option Int
  | some n, b => if n = 0 then b else some n
  | none, b => b

/-- Template interpolation of a possibly-undefined JS number. -/
def jsNumToStr : Option Nat → String
  | some n => toString n
  | none => "undefined"

/-- The course natural key used by `createSchedule`:
`course.courseCode || ⟨template⟩COURSE-${course.courseId || course.id}⟨/template⟩`. -/
def courseKey (c : CourseInput) : String :=
  jsOrStr c.courseCode ("COURSE-" ++ jsNumToStr (jsOrNatOpt c.courseId c.id))

/-- `course.credits || 0`. -/
def courseCredits (c : CourseInput) : Int :=
  c.credits.getD 0

/-- `courses.reduce((sum, course) => sum + (course.credits || 0), 0)` — the
total credits both `createSchedule` and `updateSchedule` store. -/
def suppliedSum (courses : List CourseInput) : Int :=
  courses.foldl (fun s c => s + courseCredits c) 0

/-- Number of `Courses` rows whose `CourseCode` equals `code`. -/
def countCourse (db : DB) (code : String) : Nat :=
  (db.courses.filter fun r => r.courseCode == code).length

/-- Number of `ScheduleDetails` rows for schedule `sid`. -/
def countDetails (db : DB) (sid : Nat) : Nat :=
  (db.details.filter fun d => d.scheduleId == sid).length

/-! ## `ScheduleService.createSchedule` (schedule-service.js lines 213-339) -/

/-- The generic error a faulted SQL statement throws (its identity is
irrelevant to the rollback claims). -/
def dbFault : JsError := ⟨"query failed", ""⟩

/-- `Error('Email is required')` (line 222). -/
def emailRequiredErr : JsError := ⟨"Email is required", ""⟩

/-- `Error('Failed to get or create UserId - result is null/undefined')`. -/
def userIdNullErr : JsError :=
  ⟨"Failed to get or create UserId - result is null/undefined", ""⟩

/-- `Error('Schedule not found')` thrown by `getScheduleDetails`. -/
def scheduleNotFoundErr : JsError := ⟨"Schedule not found", ""⟩

/-- The mssql driver's rejection when `updateSchedule` passes
`course.courseId || course.id` = undefined to an `Int` parameter. -/
def invalidColumnErr : JsError := ⟨"Invalid column value", ""⟩

/-- The user INSERT of `createSchedule` (lines 236-248): name defaults to the
email's local part, role to `'Student'`; returns the new identity value. -/
def insertUser (db : DB) (email : String) (h : UserHints) : DB × Nat :=
  let uid := db.nextUserId
  ({ db with
      users := db.users ++ [⟨uid, email,
        jsOrStr h.name (emailLocalPart email),
        jsOrStrOpt h.studentId none,
        jsOrStr h.role "Student"⟩],
      nextUserId := uid + 1 }, uid)

/-- The user-resolution prefix of `createSchedule` (lines 226-249), executed
on the pool before the transaction: SELECT by email (query index 0), then
INSERT when absent (query index 1).  Returns the possibly-extended store, the
numeric user id, and the next free query index. -/
def resolveUserInCreate (fault : Nat → Bool) (db : DB) (email : String)
    (h : UserHints) : Except JsError (DB × Nat × Nat) :=
  if fault 0 then .error dbFault else
  match db.users.find? (fun u => u.email == email) with
  | some u => .ok (db, u.userId, 1)
  | none =>
    if fault 1 then .error dbFault else
    let (db1, uid) := insertUser db email h
    .ok (db1, uid, 2)

/-- Append a `ScheduleDetails` row (the INSERT of lines 309-315). -/
def insertDetail (db : DB) (sid cid : Nat) : DB :=
  { db with
      details := db.details ++ [⟨db.nextDetailId, sid, cid⟩],
      nextDetailId := db.nextDetailId + 1 }

/-- The `Courses` INSERT of lines 290-303, with every `||` fallback chain of
the source made explicit. -/
def insertCourse (db : DB) (c : CourseInput) : DB × Nat :=
  let cid := db.nextCourseId
  ({ db with
      courses := db.courses ++ [⟨cid,
        jsOrStr (jsOrStrOpt c.courseName c.name) "Unknown Course",
        courseKey c,
        courseCredits c,
        jsOrStrOpt (jsOrStrOpt c.lecturer c.instructor) none,
        jsOrStrOpt (jsOrStrOpt c.time c.schedule) none,
        jsOrStrOpt c.room none,
        jsOrStrOpt c.weeks none,
        jsOrIntOpt (jsOrIntOpt c.quantity c.maxStudents) none⟩],
      nextCourseId := cid + 1 }, cid)

/-- The per-course loop of the `createSchedule` transaction (lines 277-316):
SELECT the course by its key (one query), INSERT it when absent (one more
query), then INSERT the `ScheduleDetails` row (one query).  All statements run
on the transaction, so the lookup sees rows inserted earlier in the same
loop. -/
def insertCourseLoop (fault : Nat → Bool) (sid : Nat) :
    List CourseInput → DB → Nat → Except JsError (DB × Nat)
  | [], tx, idx => .ok (tx, idx)
  | c :: rest, tx, idx =>
    if fault idx then .error dbFault else
    match tx.courses.find? (fun r => r.courseCode == courseKey c) with
    | some row =>
      if fault (idx + 1) then .error dbFault else
      insertCourseLoop fault sid rest (insertDetail tx sid row.courseId) (idx + 2)
    | none =>
      if fault (idx + 1) then .error dbFault else
      let (tx1, cid) := insertCourse tx c
      if fault (idx + 2) then .error dbFault else
      insertCourseLoop fault sid rest (insertDetail tx1 sid cid) (idx + 3)

/-- The `Schedules` INSERT of lines 264-272 (on the transaction).  The source
substitutes a date-stamped label when `scheduleName` is missing; the label is
time-dependent and unobserved by every claim, so the optional name is stored
as given. -/
def txInsertSchedule (db : DB) (uid : Nat) (nm : Option String) (tc : Int) : DB :=
  { db with
      schedules := db.schedules ++ [⟨db.nextScheduleId, uid, nm, tc⟩],
      nextScheduleId := db.nextScheduleId + 1 }

/-- The value `createSchedule` resolves with (its `data` object). -/
structure CreateResult where
  scheduleId : Nat
  scheduleName : Option String
  totalCredits : Int
  courseCount : Nat
deriving Repr, DecidableEq

/-- The transaction body of `createSchedule` (lines 256-337): compute
`totalCredits` from the input list, INSERT the schedule header, run the course
loop, commit.  An error anywhere inside propagates without a state (the caller
rolls back to its snapshot). -/
def createScheduleTxBody (fault : Nat → Bool) (idx : Nat) (db : DB) (uid : Nat)
    (scheduleName : Option String) (courses : List CourseInput) :
    Except JsError (CreateResult × DB) :=
  if fault idx then .error dbFault else
  match insertCourseLoop fault db.nextScheduleId courses
      (txInsertSchedule db uid scheduleName (suppliedSum courses)) (idx + 1) with
  | .error e => .error e
  | .ok (tx, _) =>
    .ok (⟨db.nextScheduleId, scheduleName, suppliedSum courses, courses.length⟩, tx)

/-- `ScheduleService.createSchedule` (lines 213-339), one attempt of the
operation passed to `executeWithRetry`.  Email derivation
(`userData.email || (userIdentifier.includes('@') ? userIdentifier : null)`),
user resolution on the pool, then the transaction: on any failure inside it
the `catch` rolls back, leaving the store as it was when `begin` ran. -/
def createSchedule (fault : Nat → Bool) (db : DB) (userIdentifier : String)
    (scheduleName : Option String) (courses : List CourseInput)
    (userData : UserHints) : Except JsError CreateResult × DB :=
  match jsOrStrOpt userData.email
      (if strContainsChar userIdentifier '@' then some userIdentifier else none) with
  | none => (.error emailRequiredErr, db)
  | some email =>
    match resolveUserInCreate fault db email userData with
    | .error e => (.error e, db)
    | .ok (dbU, uid, idx) =>
      if uid == 0 then (.error userIdNullErr, dbU)
      else
        match createScheduleTxBody fault idx dbU uid scheduleName courses with
        | .error e => (.error e, dbU)
        | .ok (r, dbT) => (.ok r, dbT)

/-! ## Reads, update, delete, and the HTTP handler -/

/-- One element of the list `getUserSchedules` resolves with. -/
structure ScheduleSummary where
  scheduleId : Nat
  scheduleName : Option String
  totalCredits : Int
  courseCount : Nat
deriving Repr, DecidableEq

/-- `ScheduleService.getUserSchedules` (lines 344-390), happy path of one
attempt: derive the email only when the identifier contains `'@'`, look the
user up, and return the empty list when no (truthy) numeric user id was
found; otherwise the grouped LEFT JOIN, whose `COUNT(sd.DetailId)` per
schedule is the number of its `ScheduleDetails` rows. -/
def getUserSchedules (db : DB) (userIdentifier : String) :
    Except JsError (List ScheduleSummary) :=
  let numericUserId : Option Nat :=
    if strContainsChar userIdentifier '@' then
      match db.users.find? (fun u => u.email == userIdentifier) with
      | some u => if u.userId = 0 then none else some u.userId
      | none => none
    else none
  match numericUserId with
  | none => .ok []
  | some uid =>
    .ok ((db.schedules.filter fun s => s.userId == uid).map fun s =>
      ⟨s.scheduleId, s.scheduleName, s.totalCredits, countDetails db s.scheduleId⟩)

/-- `ScheduleService.getScheduleDetails` (lines 395-426), happy path of one
attempt: SELECT the schedule row, throw `'Schedule not found'` when absent,
else INNER JOIN its `ScheduleDetails` with `Courses`. -/
def getScheduleDetails (db : DB) (scheduleId : Nat) :
    Except JsError (ScheduleRow × List CourseRow) :=
  match db.schedules.find? (fun s => s.scheduleId == scheduleId) with
  | none => .error scheduleNotFoundErr
  | some srow =>
    .ok (srow, (db.details.filter fun d => d.scheduleId == scheduleId).filterMap
      fun d => db.courses.find? fun c => c.courseId == d.courseId)

/-- The per-course loop of the `updateSchedule` transaction (lines 459-467):
one INSERT into `ScheduleDetails` per input element using
`course.courseId || course.id` directly; an undefined id is rejected by the
driver (the exact error identity is irrelevant to the claims). -/
def updateDetailsLoop (fault : Nat → Bool) (sid : Nat) :
    List CourseInput → DB → Nat → Except JsError (DB × Nat)
  | [], tx, idx => .ok (tx, idx)
  | c :: rest, tx, idx =>
    if fault idx then .error dbFault else
    match jsOrNatOpt c.courseId c.id with
    | none => .error invalidColumnErr
    | some cid => updateDetailsLoop fault sid rest (insertDetail tx sid cid) (idx + 1)

/-- The `UPDATE Schedules SET ...` statement of `updateSchedule` (lines
441-451): overwrite name and total credits of the matching rows. -/
def updateHeaderRow (db : DB) (sid : Nat) (nm : Option String) (tc : Int) : DB :=
  { db with
      schedules := db.schedules.map fun (s : ScheduleRow) =>
        if s.scheduleId == sid then
          { s with scheduleName := nm, totalCredits := tc }
        else s }

/-- The `DELETE FROM ScheduleDetails WHERE ScheduleId = @scheduleId` of
`updateSchedule` (lines 454-456). -/
def deleteDetailsRows (db : DB) (sid : Nat) : DB :=
  { db with details := db.details.filter fun d => d.scheduleId != sid }

/-- `ScheduleService.updateSchedule` (lines 431-481): in one transaction,
UPDATE the schedule header with the name and the recomputed caller-supplied
credit sum (query 0), DELETE the old `ScheduleDetails` (query 1), re-INSERT
one row per input course, commit; any failure rolls back to the snapshot. -/
def updateSchedule (fault : Nat → Bool) (db : DB) (scheduleId : Nat)
    (scheduleName : Option String) (courses : List CourseInput) :
    Except JsError Unit × DB :=
  if fault 0 then (.error dbFault, db) else
  if fault 1 then (.error dbFault, db) else
  match updateDetailsLoop fault scheduleId courses
      (deleteDetailsRows
        (updateHeaderRow db scheduleId scheduleName (suppliedSum courses))
        scheduleId) 2 with
  | .error e => (.error e, db)
  | .ok (tx3, _) => (.ok (), tx3)

/-- `ScheduleService.deleteSchedule` (lines 486-497), happy path of one
attempt: `DELETE FROM Schedules WHERE ScheduleId = @scheduleId`; the
`ScheduleDetails` rows of the schedule are removed by the store's
`ON DELETE CASCADE` foreign key (`setup-database.js` line 105). -/
def deleteSchedule (db : DB) (scheduleId : Nat) : DB :=
  { db with
      schedules := db.schedules.filter fun s => s.scheduleId != scheduleId,
      details := db.details.filter fun d => d.scheduleId != scheduleId }

/-- What the `schedules-create` handler replies with (status bodies reduced to
their shape). -/
inductive HandlerResp where
  | validationErr
  | success (r : CreateResult)
  | serverErr (message : String)
deriving Repr, DecidableEq

/-- JS truthiness of the optional `userId` body field ("" is falsy). -/
def jsTruthyStr : Option String → Bool
  | some s => s ≠ ""
  | none => false

/-- The POST `/api/schedules` handler (`schedules.js` lines 44-82): reject
with a validation error — before any service call, so the store is untouched —
unless `userId` is truthy and `courses` is a non-empty array; otherwise call
`ScheduleService.createSchedule` with `user || { email: userId }`. -/
def schedulesCreateHandler (fault : Nat → Bool) (db : DB)
    (userId : Option String) (scheduleName : Option String)
    (courses : Option (List CourseInput)) (user : Option UserHints) :
    HandlerResp × DB :=
  if ¬ jsTruthyStr userId ∨ courses.isNone ∨ (courses.getD []).length = 0 then
    (.validationErr, db)
  else
    match createSchedule fault db (userId.getD "") scheduleName
        (courses.getD []) (user.getD { email := userId }) with
    | (.ok r, db') => (.success r, db')
    | (.error e, db') => (.serverErr e.message, db')

/-- Measurement used to compare the store against the spec's invariant
"`Schedule.totalCredits` always equals the sum of its current entries' course
credits": the credit sum of the `Courses` rows referenced by the
`ScheduleDetails` rows of schedule `sid`. -/
def entryCreditsSum (db : DB) (sid : Nat) : Int :=
  (((db.details.filter fun d => d.scheduleId == sid).filterMap
      fun d => db.courses.find? fun c => c.courseId == d.courseId).map
    fun c => c.credits).foldl (· + ·) 0

/-! ## Lemmas about the primitive store operations -/

theorem countCourse_insertDetail (db : DB) (sid cid : Nat) (code : String) :
    countCourse (insertDetail db sid cid) code = countCourse db code := rfl

theorem schedules_insertDetail (db : DB) (sid cid : Nat) :
    (insertDetail db sid cid).schedules = db.schedules := rfl

theorem countDetails_insertDetail (db : DB) (sid cid : Nat) :
    countDetails (insertDetail db sid cid) sid = countDetails db sid + 1 := by
  simp [countDetails, insertDetail]

theorem countCourse_insertCourse_same (db : DB) (c : CourseInput)
    (h : courseKey c = code) :
    countCourse (insertCourse db c).1 code = countCourse db code + 1 := by
  simp [countCourse, insertCourse, List.filter_append, h]

theorem countCourse_insertCourse_other (db : DB) (c : CourseInput)
    (h : courseKey c ≠ code) :
    countCourse (insertCourse db c).1 code = countCourse db code := by
  simp [countCourse, insertCourse, List.filter_append, h]

theorem schedules_insertCourse (db : DB) (c : CourseInput) :
    (insertCourse db c).1.schedules = db.schedules := rfl

theorem countDetails_insertCourse (db : DB) (c : CourseInput) (sid : Nat) :
    countDetails (insertCourse db c).1 sid = countDetails db sid := rfl

theorem countCourse_pos_find? (db : DB) (code : String)
    (h : 1 ≤ countCourse db code) :
    db.courses.find? (fun r => r.courseCode == code) ≠ none := by
  intro hnone
  rw [List.find?_eq_none] at hnone
  have : db.courses.filter (fun r => r.courseCode == code) = [] :=
    List.filter_eq_nil_iff.mpr hnone
  simp [countCourse, this] at h

theorem countCourse_zero_find? (db : DB) (code : String)
    (h : countCourse db code = 0) :
    db.courses.find? (fun r => r.courseCode == code) = none := by
  have h' : (db.courses.filter fun r => r.courseCode == code) = [] := by
    simpa [countCourse, List.length_eq_zero] using h
  rw [List.find?_eq_none]
  intro r hr
  exact List.filter_eq_nil_iff.mp h' r hr

/-- The user-resolution steps touch only the `Users` table and its identity
counter. -/
theorem resolveUserInCreate_ok (fault : Nat → Bool) (db : DB) (email : String)
    (h : UserHints) (dbU : DB) (uid idx : Nat)
    (hres : resolveUserInCreate fault db email h = .ok (dbU, uid, idx)) :
    dbU.courses = db.courses ∧ dbU.schedules = db.schedules ∧
    dbU.details = db.details ∧ dbU.nextCourseId = db.nextCourseId ∧
    dbU.nextScheduleId = db.nextScheduleId ∧ dbU.nextDetailId = db.nextDetailId := by
  unfold resolveUserInCreate at hres
  split at hres
  · exact absurd hres (by simp)
  · split at hres
    · simp only [Except.ok.injEq, Prod.mk.injEq] at hres
      obtain ⟨rfl, -, -⟩ := hres
      exact ⟨rfl, rfl, rfl, rfl, rfl, rfl⟩
    · split at hres
      · exact absurd hres (by simp)
      · simp only [insertUser, Except.ok.injEq, Prod.mk.injEq] at hres
        obtain ⟨rfl, -, -⟩ := hres
        exact ⟨rfl, rfl, rfl, rfl, rfl, rfl⟩

/-! ## Lemmas about the per-course transaction loops -/

/-- The course loop never touches the `Schedules` table. -/
theorem insertCourseLoop_ok_schedules (fault : Nat → Bool) (sid : Nat) :
    ∀ (cs : List CourseInput) (tx : DB) (idx : Nat) (tx2 : DB) (j : Nat),
      insertCourseLoop fault sid cs tx idx = .ok (tx2, j) →
      tx2.schedules = tx.schedules := by
  intro cs
  induction cs with
  | nil =>
    intro tx idx tx2 j h
    simp only [insertCourseLoop, Except.ok.injEq, Prod.mk.injEq] at h
    rw [← h.1]
  | cons c rest ih =>
    intro tx idx tx2 j h
    simp only [insertCourseLoop] at h
    split at h
    · exact absurd h (by simp)
    · split at h
      · split at h
        · exact absurd h (by simp)
        · rw [ih _ _ _ _ h, schedules_insertDetail]
      · split at h
        · exact absurd h (by simp)
        · split at h
          · exact absurd h (by simp)
          · rw [ih _ _ _ _ h, schedules_insertDetail, schedules_insertCourse]

/-- The course loop inserts exactly one `ScheduleDetails` row per input
element, all for schedule `sid`. -/
theorem insertCourseLoop_ok_details (fault : Nat → Bool) (sid : Nat) :
    ∀ (cs : List CourseInput) (tx : DB) (idx : Nat) (tx2 : DB) (j : Nat),
      insertCourseLoop fault sid cs tx idx = .ok (tx2, j) →
      countDetails tx2 sid = countDetails tx sid + cs.length := by
  intro cs
  induction cs with
  | nil =>
    intro tx idx tx2 j h
    simp only [insertCourseLoop, Except.ok.injEq, Prod.mk.injEq] at h
    rw [← h.1]
    simp
  | cons c rest ih =>
    intro tx idx tx2 j h
    simp only [insertCourseLoop] at h
    split at h
    · exact absurd h (by simp)
    · split at h
      · split at h
        · exact absurd h (by simp)
        · rw [ih _ _ _ _ h, countDetails_insertDetail]
          simp
          omega
      · split at h
        · exact absurd h (by simp)
        · split at h
          · exact absurd h (by simp)
          · rw [ih _ _ _ _ h, countDetails_insertDetail, countDetails_insertCourse]
            simp
            omega

/-- A `Courses` row already present for `code` is reused: the loop never adds
a second one. -/
theorem insertCourseLoop_count_stable (fault : Nat → Bool) (sid : Nat)
    (code : String) :
    ∀ (cs : List CourseInput) (tx : DB) (idx : Nat) (tx2 : DB) (j : Nat),
      1 ≤ countCourse tx code →
      insertCourseLoop fault sid cs tx idx = .ok (tx2, j) →
      countCourse tx2 code = countCourse tx code := by
  intro cs
  induction cs with
  | nil =>
    intro tx idx tx2 j hpos h
    simp only [insertCourseLoop, Except.ok.injEq, Prod.mk.injEq] at h
    rw [← h.1]
  | cons c rest ih =>
    intro tx idx tx2 j hpos h
    simp only [insertCourseLoop] at h
    split at h
    · exact absurd h (by simp)
    · split at h
      · split at h
        · exact absurd h (by simp)
        · rw [ih _ _ _ _ (by rwa [countCourse_insertDetail]) h,
            countCourse_insertDetail]
      · split at h
        · exact absurd h (by simp)
        · split at h
          · exact absurd h (by simp)
          · rename_i hfind _ _
            have hne : courseKey c ≠ code := by
              intro hcontra
              exact countCourse_pos_find? tx code hpos (hcontra ▸ hfind)
            rw [ih _ _ _ _ ?_ h, countCourse_insertDetail,
              countCourse_insertCourse_other tx c hne]
            rwa [countCourse_insertDetail, countCourse_insertCourse_other tx c hne]

/-- When no `Courses` row for `code` exists and some input element carries
that key, the loop creates exactly one row for it. -/
theorem insertCourseLoop_count_create (fault : Nat → Bool) (sid : Nat)
    (code : String) :
    ∀ (cs : List CourseInput) (tx : DB) (idx : Nat) (tx2 : DB) (j : Nat),
      countCourse tx code = 0 →
      code ∈ cs.map courseKey →
      insertCourseLoop fault sid cs tx idx = .ok (tx2, j) →
      countCourse tx2 code = 1 := by
  intro cs
  induction cs with
  | nil =>
    intro tx idx tx2 j _ hmem
    simp at hmem
  | cons c rest ih =>
    intro tx idx tx2 j hzero hmem h
    simp only [insertCourseLoop] at h
    split at h
    · exact absurd h (by simp)
    · split at h
      · rename_i row hfind
        have hne : courseKey c ≠ code := by
          intro hcontra
          rw [hcontra, countCourse_zero_find? tx code hzero] at hfind
          exact absurd hfind (by simp)
        split at h
        · exact absurd h (by simp)
        · have hmem' : code ∈ rest.map courseKey := by
            rcases List.mem_map.mp hmem with ⟨x, hx, hxk⟩
            rcases List.mem_cons.mp hx with hx | hx
            · exact absurd (hx ▸ hxk) hne
            · exact List.mem_map.mpr ⟨x, hx, hxk⟩
          exact ih _ _ _ _ (by rwa [countCourse_insertDetail]) hmem' h
      · split at h
        · exact absurd h (by simp)
        · split at h
          · exact absurd h (by simp)
          · by_cases hk : courseKey c = code
            · have hone : countCourse (insertDetail (insertCourse tx c).1 sid
                  (insertCourse tx c).2) code = 1 := by
                rw [countCourse_insertDetail,
                  countCourse_insertCourse_same tx c hk, hzero]
              rw [insertCourseLoop_count_stable fault sid code rest _ _ _ _
                (by rw [hone]) h, hone]
            · have hmem' : code ∈ rest.map courseKey := by
                rcases List.mem_map.mp hmem with ⟨x, hx, hxk⟩
                rcases List.mem_cons.mp hx with hx | hx
                · exact absurd (hx ▸ hxk) hk
                · exact List.mem_map.mpr ⟨x, hx, hxk⟩
              exact ih _ _ _ _
                (by rw [countCourse_insertDetail,
                  countCourse_insertCourse_other tx c hk, hzero]) hmem' h

/-- The detail-reinsertion loop of `updateSchedule` never touches the
`Schedules` table. -/
theorem updateDetailsLoop_ok_schedules (fault : Nat → Bool) (sid : Nat) :
    ∀ (cs : List CourseInput) (tx : DB) (idx : Nat) (tx2 : DB) (j : Nat),
      updateDetailsLoop fault sid cs tx idx = .ok (tx2, j) →
      tx2.schedules = tx.schedules := by
  intro cs
  induction cs with
  | nil =>
    intro tx idx tx2 j h
    simp only [updateDetailsLoop, Except.ok.injEq, Prod.mk.injEq] at h
    rw [← h.1]
  | cons c rest ih =>
    intro tx idx tx2 j h
    simp only [updateDetailsLoop] at h
    split at h
    · exact absurd h (by simp)
    · split at h
      · exact absurd h (by simp)
      · rw [ih _ _ _ _ h, schedules_insertDetail]

/-! ## Decomposition of successful `createSchedule` / `updateSchedule` runs -/

theorem countCourse_eq_of_courses {db1 db2 : DB} (h : db1.courses = db2.courses)
    (code : String) : countCourse db1 code = countCourse db2 code := by
  simp [countCourse, h]

theorem countDetails_eq_of_details {db1 db2 : DB} (h : db1.details = db2.details)
    (sid : Nat) : countDetails db1 sid = countDetails db2 sid := by
  simp [countDetails, h]

theorem countCourse_txInsertSchedule (db : DB) (uid : Nat) (nm : Option String)
    (tc : Int) (code : String) :
    countCourse (txInsertSchedule db uid nm tc) code = countCourse db code := rfl

theorem countDetails_txInsertSchedule (db : DB) (uid : Nat) (nm : Option String)
    (tc : Int) (sid : Nat) :
    countDetails (txInsertSchedule db uid nm tc) sid = countDetails db sid := rfl

/-- A successful `createSchedule` run decomposes into a successful user
resolution followed by a successful transaction whose final state is the
returned store. -/
theorem createSchedule_ok_decomp (fault : Nat → Bool) (db : DB)
    (idf : String) (nm : Option String) (cs : List CourseInput) (h : UserHints)
    (r : CreateResult) (db' : DB)
    (hok : createSchedule fault db idf nm cs h = (.ok r, db')) :
    ∃ email dbU uid idx j,
      resolveUserInCreate fault db email h = .ok (dbU, uid, idx) ∧
      r = ⟨dbU.nextScheduleId, nm, suppliedSum cs, cs.length⟩ ∧
      insertCourseLoop fault dbU.nextScheduleId cs
        (txInsertSchedule dbU uid nm (suppliedSum cs)) (idx + 1) = .ok (db', j) := by
  unfold createSchedule at hok
  split at hok
  · exact absurd hok (by simp)
  · rename_i email hemail
    split at hok
    · exact absurd hok (by simp)
    · rename_i dbU uid idx hres
      split at hok
      · exact absurd hok (by simp)
      · split at hok
        · exact absurd hok (by simp)
        · rename_i r' dbT hbody
          simp only [Prod.mk.injEq, Except.ok.injEq] at hok
          obtain ⟨hr, hdb⟩ := hok
          unfold createScheduleTxBody at hbody
          split at hbody
          · exact absurd hbody (by simp)
          · split at hbody
            · exact absurd hbody (by simp)
            · rename_i tx j hloop
              simp only [Except.ok.injEq, Prod.mk.injEq] at hbody
              obtain ⟨hr', htx⟩ := hbody
              refine ⟨email, dbU, uid, idx, j, hres, ?_, ?_⟩
              · rw [← hr, ← hr']
              · rw [← hdb, ← htx]
                exact hloop

/-- On success, `createSchedule` appends exactly one `Schedules` row, holding
the caller-supplied credit sum. -/
theorem createSchedule_ok_schedules (fault : Nat → Bool) (db : DB)
    (idf : String) (nm : Option String) (cs : List CourseInput) (h : UserHints)
    (r : CreateResult) (db' : DB)
    (hok : createSchedule fault db idf nm cs h = (.ok r, db')) :
    r.totalCredits = suppliedSum cs ∧
    ∃ uid, db'.schedules = db.schedules ++ [⟨r.scheduleId, uid, nm, suppliedSum cs⟩] := by
  obtain ⟨email, dbU, uid, idx, j, hres, hr, hloop⟩ :=
    createSchedule_ok_decomp fault db idf nm cs h r db' hok
  obtain ⟨-, hsch, -, -, hnext, -⟩ :=
    resolveUserInCreate_ok fault db email h dbU uid idx hres
  subst hr
  refine ⟨rfl, uid, ?_⟩
  rw [insertCourseLoop_ok_schedules fault _ cs _ _ _ _ hloop]
  simp [txInsertSchedule, hsch, hnext]

/-- On success, `createSchedule` inserts one `ScheduleDetails` row per input
element for the new schedule id. -/
theorem createSchedule_ok_countDetails (fault : Nat → Bool) (db : DB)
    (idf : String) (nm : Option String) (cs : List CourseInput) (h : UserHints)
    (r : CreateResult) (db' : DB)
    (hok : createSchedule fault db idf nm cs h = (.ok r, db')) :
    countDetails db' r.scheduleId = countDetails db r.scheduleId + cs.length := by
  obtain ⟨email, dbU, uid, idx, j, hres, hr, hloop⟩ :=
    createSchedule_ok_decomp fault db idf nm cs h r db' hok
  obtain ⟨-, -, hdet, -, -, -⟩ :=
    resolveUserInCreate_ok fault db email h dbU uid idx hres
  subst hr
  rw [insertCourseLoop_ok_details fault _ cs _ _ _ _ hloop,
    countDetails_txInsertSchedule, countDetails_eq_of_details hdet]

/-- On success, a previously-unseen course key occurring in the input list
ends up with exactly one `Courses` row. -/
theorem createSchedule_ok_countCourse_create (fault : Nat → Bool) (db : DB)
    (idf : String) (nm : Option String) (cs : List CourseInput) (h : UserHints)
    (r : CreateResult) (db' : DB) (code : String)
    (hok : createSchedule fault db idf nm cs h = (.ok r, db'))
    (hzero : countCourse db code = 0) (hmem : code ∈ cs.map courseKey) :
    countCourse db' code = 1 := by
  obtain ⟨email, dbU, uid, idx, j, hres, hr, hloop⟩ :=
    createSchedule_ok_decomp fault db idf nm cs h r db' hok
  obtain ⟨hcrs, -, -, -, -, -⟩ :=
    resolveUserInCreate_ok fault db email h dbU uid idx hres
  exact insertCourseLoop_count_create fault _ code cs _ _ _ _
    (by rw [countCourse_txInsertSchedule, countCourse_eq_of_courses hcrs]; exact hzero)
    hmem hloop

/-- On success, a course key that already has a row keeps exactly that row
count. -/
theorem createSchedule_ok_countCourse_stable (fault : Nat → Bool) (db : DB)
    (idf : String) (nm : Option String) (cs : List CourseInput) (h : UserHints)
    (r : CreateResult) (db' : DB) (code : String)
    (hok : createSchedule fault db idf nm cs h = (.ok r, db'))
    (hpos : 1 ≤ countCourse db code) :
    countCourse db' code = countCourse db code := by
  obtain ⟨email, dbU, uid, idx, j, hres, hr, hloop⟩ :=
    createSchedule_ok_decomp fault db idf nm cs h r db' hok
  obtain ⟨hcrs, -, -, -, -, -⟩ :=
    resolveUserInCreate_ok fault db email h dbU uid idx hres
  rw [insertCourseLoop_count_stable fault _ code cs _ _ _ _
    (by rw [countCourse_txInsertSchedule, countCourse_eq_of_courses hcrs]; exact hpos)
    hloop, countCourse_txInsertSchedule, countCourse_eq_of_courses hcrs]

/-- On success, `updateSchedule` rewrites the matching `Schedules` rows with
the supplied name and the caller-supplied credit sum. -/
theorem updateSchedule_ok_schedules (fault : Nat → Bool) (db : DB) (sid : Nat)
    (nm : Option String) (cs : List CourseInput) (db' : DB)
    (hok : updateSchedule fault db sid nm cs = (.ok (), db')) :
    db'.schedules = db.schedules.map fun s =>
      if s.scheduleId == sid then
        { s with scheduleName := nm, totalCredits := suppliedSum cs }
      else s := by
  unfold updateSchedule at hok
  split at hok
  · exact absurd hok (by simp)
  · split at hok
    · exact absurd hok (by simp)
    · split at hok
      · exact absurd hok (by simp)
      · rename_i tx3 j hloop
        simp only [Prod.mk.injEq] at hok
        rw [← hok.2, updateDetailsLoop_ok_schedules fault sid cs _ _ _ _ hloop]
        rfl

/-! ## Lemmas about the retry loops -/

/-- If the first `k` attempts fail transiently and attempt `attempt + k` (still
within the remaining budget) succeeds, the schedule-service retry loop returns
that success. -/
theorem executeWithRetryGo_ok {α : Type} (f : Nat → Except JsError α) (v : α) :
    ∀ (k attempt r : Nat) (le : Option JsError), k < r →
      (∀ i, i < k → ∃ e, f (attempt + i) = .error e ∧ isAzurePausedError e = true) →
      f (attempt + k) = .ok v →
      executeWithRetryGo f attempt r le = .ok v := by
  intro k
  induction k with
  | zero =>
    intro attempt r le hk hfail hsucc
    cases r with
    | zero => omega
    | succ r' =>
      rw [Nat.add_zero] at hsucc
      simp only [executeWithRetryGo, hsucc]
  | succ k ih =>
    intro attempt r le hk hfail hsucc
    cases r with
    | zero => omega
    | succ r' =>
      obtain ⟨e, he, htrans⟩ := hfail 0 (Nat.succ_pos k)
      rw [Nat.add_zero] at he
      simp only [executeWithRetryGo, he, htrans, if_true]
      exact ih (attempt + 1) r' (some e) (by omega)
        (fun i hi => by
          have hf := hfail (i + 1) (by omega)
          rwa [show attempt + (i + 1) = attempt + 1 + i by omega] at hf)
        (by rwa [show attempt + 1 + k = attempt + (k + 1) by omega])

/-- Same statement for the database-service retry loop. -/
theorem dbExecuteWithRetryGo_ok {α : Type} (f : Nat → Except JsError α) (v : α) :
    ∀ (k attempt r : Nat) (le : Option JsError), k < r →
      (∀ i, i < k → ∃ e, f (attempt + i) = .error e ∧ isDbAzurePausedError e = true) →
      f (attempt + k) = .ok v →
      dbExecuteWithRetryGo f attempt r le = .ok v := by
  intro k
  induction k with
  | zero =>
    intro attempt r le hk hfail hsucc
    cases r with
    | zero => omega
    | succ r' =>
      rw [Nat.add_zero] at hsucc
      simp only [dbExecuteWithRetryGo, hsucc]
  | succ k ih =>
    intro attempt r le hk hfail hsucc
    cases r with
    | zero => omega
    | succ r' =>
      obtain ⟨e, he, htrans⟩ := hfail 0 (Nat.succ_pos k)
      rw [Nat.add_zero] at he
      simp only [dbExecuteWithRetryGo, he, htrans, if_true]
      exact ih (attempt + 1) r' (some e) (by omega)
        (fun i hi => by
          have hf := hfail (i + 1) (by omega)
          rwa [show attempt + (i + 1) = attempt + 1 + i by omega] at hf)
        (by rwa [show attempt + 1 + k = attempt + (k + 1) by omega])

/-! ## Claim theorems -/

/-- **C2.** For every operation and every error sequence of fewer than
`maxRetries` (5) transient connection-related failures followed by a success
(on attempt `k + 1`), `executeWithRetry` returns the operation's successful
result and surfaces no error — proved for both implementations,
`ScheduleService.executeWithRetry` (left) and `DatabaseService.executeWithRetry`
(right), each against its own transient-error classifier. -/
theorem executeWithRetry_transient_then_success {α β : Type}
    (f : Nat → Except JsError α) (g : Nat → Except JsError β)
    (k m : Nat) (v : α) (w : β)
    (hk : k < retryMaxRetries) (hm : m < retryMaxRetries)
    (hf : ∀ i, i < k → ∃ e, f (1 + i) = .error e ∧ isAzurePausedError e = true)
    (hfs : f (1 + k) = .ok v)
    (hg : ∀ i, i < m → ∃ e, g (1 + i) = .error e ∧ isDbAzurePausedError e = true)
    (hgs : g (1 + m) = .ok w) :
    executeWithRetry f = .ok v ∧ dbExecuteWithRetry g = .ok w :=
  ⟨executeWithRetryGo_ok f v k 1 retryMaxRetries none hk hf hfs,
   dbExecuteWithRetryGo_ok g w m 1 retryMaxRetries none hm hg hgs⟩

/-- A transient error for the schedule-service classifier. -/
def transientTimeoutErr : JsError := ⟨"ETIMEDOUT while connecting", ""⟩

/-- A transient error for the database-service classifier (and not for the
schedule-service one, whose pattern is lower-case). -/
def dbTransientErr : JsError := ⟨"Login failed for user", ""⟩

/-- A permanent (non-connection) error for both classifiers. -/
def primaryKeyErr : JsError := ⟨"Violation of PRIMARY KEY constraint", ""⟩

/-- Attempts 1-2 time out, attempt 3 succeeds. -/
def c2OracleA : Nat → Except JsError Nat :=
  fun i => if i ≤ 2 then .error transientTimeoutErr else .ok 42

/-- Attempts 1-3 fail with a login failure, attempt 4 succeeds. -/
def c2OracleB : Nat → Except JsError Nat :=
  fun i => if i ≤ 3 then .error dbTransientErr else .ok 7

/-- Witness for C2: two transient failures then success on the
schedule-service loop, three then success on the database-service loop. -/
theorem executeWithRetry_transient_then_success_witness :
    executeWithRetry c2OracleA = .ok 42 ∧ dbExecuteWithRetry c2OracleB = .ok 7 :=
  executeWithRetry_transient_then_success c2OracleA c2OracleB 2 3 42 7
    (by decide) (by decide)
    (fun i hi => ⟨transientTimeoutErr, by interval_cases i <;> exact ⟨rfl, rfl⟩⟩)
    rfl
    (fun i hi => ⟨dbTransientErr, by interval_cases i <;> exact ⟨rfl, rfl⟩⟩)
    rfl

/-- **C4.** When the wrapped operation's first attempt throws an error the
classifier marks permanent (not a transient connection failure),
`ScheduleService.executeWithRetry` propagates exactly that error.  The
statement quantifies over every oracle agreeing on attempt 1, so the outcome
is independent of all later attempts: none is performed. -/
theorem executeWithRetry_permanent_immediate {α : Type}
    (f : Nat → Except JsError α) (e : JsError)
    (h1 : f 1 = .error e) (h2 : isAzurePausedError e = false) :
    executeWithRetry f = .error e := by
  unfold executeWithRetry retryMaxRetries
  simp only [executeWithRetryGo, h1, h2]
  simp

/-- Witness for C4: a constraint-violation error is propagated unchanged. -/
theorem executeWithRetry_permanent_immediate_witness :
    executeWithRetry (fun _ => (.error primaryKeyErr : Except JsError Nat))
      = .error primaryKeyErr :=
  executeWithRetry_permanent_immediate _ primaryKeyErr rfl rfl

/-- Connect attempt 1 fails with a permanent constraint error, attempt 2
succeeds. -/
def c5Oracle : Nat → Except JsError Nat :=
  fun i => if i = 1 then .error primaryKeyErr else .ok 7

/-- **C5 (counterexample).** A connect failure classified permanent does not
make `connectWithRetry` fail immediately: with a constraint-violation error on
attempt 1, the loop sleeps 2000 ms and returns the pool of attempt 2 — the
claim's fail-immediately-without-sleeping behaviour does not hold. -/
theorem connectWithRetry_retries_permanent :
    connectWithRetry c5Oracle = (.ok 7, [2000]) ∧
    isAzurePausedError primaryKeyErr = false :=
  ⟨rfl, rfl⟩

/-- **C5 (amended).** During connection establishment, classification does not
gate retrying: after a failed first attempt — transient or permanent — both
`ScheduleService.connectWithRetry` (left) and `connectWithRetry` of
`database.js` (right) sleep once (the 2000 ms initial delay; the
schedule-service loop then doubles its backoff, the database.js loop re-uses
the flat initial delay for permanent errors) and return the success of
attempt 2; only exhausting all 5 attempts propagates a failure. -/
theorem connectWithRetry_any_error_retried
    (g g' : Nat → Except JsError Nat) (e e' : JsError) (p p' : Nat)
    (h1 : g 1 = .error e) (h2 : g 2 = .ok p)
    (h1' : g' 1 = .error e') (h2' : g' 2 = .ok p') :
    connectWithRetry g = (.ok p, [retryInitialDelay]) ∧
    dbJsConnectWithRetry g' = (.ok p', [retryInitialDelay]) := by
  constructor
  · show connectWithRetryGo g 1 (4 + 1) retryInitialDelay none [] = _
    simp only [connectWithRetryGo, h1]
    cases hb : isAzurePausedError e <;>
      simp [connectWithRetryGo, h2, retryMaxRetries]
  · show dbJsConnectWithRetryGo g' 1 (4 + 1) retryInitialDelay none [] = _
    simp only [dbJsConnectWithRetryGo, h1']
    cases hb : isDbAzurePausedError e' <;>
      simp [dbJsConnectWithRetryGo, h2', retryMaxRetries]

/-- Witness for the amended C5, at the permanent error of the counterexample. -/
theorem connectWithRetry_any_error_retried_witness :
    connectWithRetry c5Oracle = (.ok 7, [retryInitialDelay]) ∧
    dbJsConnectWithRetry c5Oracle = (.ok 7, [retryInitialDelay]) :=
  connectWithRetry_any_error_retried c5Oracle c5Oracle
    primaryKeyErr primaryKeyErr 7 7 rfl rfl rfl rfl

/-- **C1.** Whenever a `createSchedule` call fails — in particular when any
SQL statement inside its transaction (the `Schedules` insert, a `Courses`
lookup or insert, or a `ScheduleDetails` insert) throws — the transaction is
rolled back: the resulting store has exactly the `Courses`, `Schedules` and
`ScheduleDetails` rows it started with, so no partial schedule and no orphaned
entries exist.  (The get-or-create of the user runs on the pool before the
transaction, so only the `Users` table may have grown.) -/
theorem createSchedule_error_rolls_back (fault : Nat → Bool) (db : DB)
    (idf : String) (nm : Option String) (cs : List CourseInput) (h : UserHints)
    (e : JsError) (db' : DB)
    (herr : createSchedule fault db idf nm cs h = (.error e, db')) :
    db'.courses = db.courses ∧ db'.schedules = db.schedules ∧
    db'.details = db.details := by
  unfold createSchedule at herr
  split at herr
  · simp only [Prod.mk.injEq] at herr
    rw [← herr.2]
    exact ⟨rfl, rfl, rfl⟩
  · split at herr
    · simp only [Prod.mk.injEq] at herr
      rw [← herr.2]
      exact ⟨rfl, rfl, rfl⟩
    · rename_i dbU uid idx hres
      obtain ⟨hcrs, hsch, hdet, -, -, -⟩ :=
        resolveUserInCreate_ok fault db _ h dbU uid idx hres
      split at herr
      · simp only [Prod.mk.injEq] at herr
        rw [← herr.2]
        exact ⟨hcrs, hsch, hdet⟩
      · split at herr
        · simp only [Prod.mk.injEq] at herr
          rw [← herr.2]
          exact ⟨hcrs, hsch, hdet⟩
        · exact absurd herr (by simp)

/-- A store with one user and one catalogued course (`IT101`, 10 credits). -/
def witnessDb : DB :=
  { users := [⟨1, "u@x.com", "u", none, "Student"⟩],
    courses := [⟨1, "Algo", "IT101", 10, none, none, none, none, none⟩],
    nextUserId := 2, nextCourseId := 2 }

/-- A request element re-using course code `IT101` but claiming 3 credits. -/
def inIT101 : CourseInput := { courseCode := some "IT101", credits := some 3 }

/-- Fault oracle failing exactly the third SQL statement of the call: the
course lookup inside the transaction, after the schedule header insert. -/
def c1Fault : Nat → Bool := fun n => n == 2

/-- Witness for C1: a failure after the in-transaction schedule insert leaves
all three tables exactly as before. -/
theorem createSchedule_error_rolls_back_witness :
    ((createSchedule c1Fault witnessDb "u@x.com" none [inIT101] {}).2).courses
        = witnessDb.courses ∧
    ((createSchedule c1Fault witnessDb "u@x.com" none [inIT101] {}).2).schedules
        = witnessDb.schedules ∧
    ((createSchedule c1Fault witnessDb "u@x.com" none [inIT101] {}).2).details
        = witnessDb.details :=
  createSchedule_error_rolls_back c1Fault witnessDb "u@x.com" none [inIT101] {}
    dbFault ((createSchedule c1Fault witnessDb "u@x.com" none [inIT101] {}).2) rfl

/-- **C3 (counterexample).** `totalCredits` is not recomputed from the
resolved `Courses` rows: creating a schedule that references the existing
`IT101` row (stored credits 10) while supplying `credits: 3` stores
`totalCredits = 3`, yet the credit sum of the rows its entries reference
is 10. -/
theorem totalCredits_mismatch_counterexample :
    ((createSchedule (fun _ => false) witnessDb "u@x.com" none [inIT101] {}).2).schedules
        = [⟨1, 1, none, 3⟩] ∧
    entryCreditsSum
      ((createSchedule (fun _ => false) witnessDb "u@x.com" none [inIT101] {}).2) 1
        = 10 ∧
    (3 : Int) ≠ 10 :=
  ⟨rfl, rfl, by decide⟩

/-- **C3 (amended).** On every successful write, the stored
`Schedule.totalCredits` is the sum of the *caller-supplied* `credits` fields
of the input course list (absent credits count as 0) — not the credits of the
resolved `Courses` rows: `createSchedule` appends exactly one schedule row
carrying that sum, and `updateSchedule` rewrites the matching rows with that
sum; when an input element's code names an existing `Courses` row whose stored
credits differ from the supplied ones, the invariant "totalCredits = sum of
the referenced rows' credits" is violated. -/
theorem totalCredits_from_caller_input :
    (∀ (fault : Nat → Bool) (db : DB) (idf : String) (nm : Option String)
        (cs : List CourseInput) (h : UserHints) (r : CreateResult) (db' : DB),
      createSchedule fault db idf nm cs h = (.ok r, db') →
      r.totalCredits = suppliedSum cs ∧
      ∃ uid, db'.schedules = db.schedules ++ [⟨r.scheduleId, uid, nm, suppliedSum cs⟩]) ∧
    (∀ (fault : Nat → Bool) (db : DB) (sid : Nat) (nm : Option String)
        (cs : List CourseInput) (db' : DB),
      updateSchedule fault db sid nm cs = (.ok (), db') →
      db'.schedules = db.schedules.map fun s =>
        if s.scheduleId == sid then
          { s with scheduleName := nm, totalCredits := suppliedSum cs }
        else s) :=
  ⟨fun fault db idf nm cs h r db' hok =>
      createSchedule_ok_schedules fault db idf nm cs h r db' hok,
   fun fault db sid nm cs db' hok =>
      updateSchedule_ok_schedules fault db sid nm cs db' hok⟩

/-- Witness for the amended C3, at the counterexample input: the stored sum is
the supplied 3, not the catalogued 10. -/
theorem totalCredits_from_caller_input_witness :
    CreateResult.totalCredits ⟨1, none, 3, 1⟩ = suppliedSum [inIT101] ∧
    ∃ uid, ((createSchedule (fun _ => false) witnessDb "u@x.com" none [inIT101] {}).2).schedules
        = witnessDb.schedules ++ [⟨1, uid, none, suppliedSum [inIT101]⟩] :=
  totalCredits_from_caller_input.1 (fun _ => false) witnessDb "u@x.com" none
    [inIT101] {} ⟨1, none, 3, 1⟩
    ((createSchedule (fun _ => false) witnessDb "u@x.com" none [inIT101] {}).2) rfl

/-- **C6 (counterexample).** `ScheduleService.createSchedule` itself does not
reject an empty course list: called directly with `courses = []` it succeeds
(no `ValidationError`) and commits a `Schedules` row with `totalCredits = 0`
and no entries — rows *are* written. -/
theorem createSchedule_empty_courses_succeeds :
    (createSchedule (fun _ => false) witnessDb "u@x.com" none [] {}).1
        = .ok ⟨1, none, 0, 0⟩ ∧
    ((createSchedule (fun _ => false) witnessDb "u@x.com" none [] {}).2).schedules.length
        = 1 :=
  ⟨rfl, rfl⟩

/-- **C6 (amended).** The empty-course-list rejection lives in the HTTP layer:
the `schedules-create` handler answers an empty `courses` array with a
validation error before calling the service, so the store is untouched;
`ScheduleService.createSchedule` performs no such check. -/
theorem handler_rejects_empty_courses (fault : Nat → Bool) (db : DB)
    (uid : Option String) (nm : Option String) (user : Option UserHints) :
    schedulesCreateHandler fault db uid nm (some []) user = (.validationErr, db) := by
  simp [schedulesCreateHandler]

/-- The empty store. -/
def emptyDb : DB := {}

/-- A previously-unseen course. -/
def freshCourse : CourseInput := { courseCode := some "IT201", credits := some 4 }

/-- **C7.** Two consecutive successful `createSchedule` calls whose course
lists both contain a course key that previously had no `Courses` row leave
exactly one `Courses` row for that key: the first call inserts it, the second
finds and reuses it. -/
theorem course_row_reused_across_calls (fault1 fault2 : Nat → Bool) (db : DB)
    (idf1 idf2 : String) (nm1 nm2 : Option String)
    (cs1 cs2 : List CourseInput) (h1 h2 : UserHints)
    (r1 r2 : CreateResult) (db1 db2 : DB) (code : String)
    (hzero : countCourse db code = 0)
    (hm1 : code ∈ cs1.map courseKey) (_hm2 : code ∈ cs2.map courseKey)
    (e1 : createSchedule fault1 db idf1 nm1 cs1 h1 = (.ok r1, db1))
    (e2 : createSchedule fault2 db1 idf2 nm2 cs2 h2 = (.ok r2, db2)) :
    countCourse db2 code = 1 := by
  have h1' : countCourse db1 code = 1 :=
    createSchedule_ok_countCourse_create fault1 db idf1 nm1 cs1 h1 r1 db1 code
      e1 hzero hm1
  rw [createSchedule_ok_countCourse_stable fault2 db1 idf2 nm2 cs2 h2 r2 db2 code
    e2 (by omega), h1']

/-- Witness for C7: creating two schedules with course code `IT201` starting
from the empty store yields one `Courses` row for `IT201`. -/
theorem course_row_reused_across_calls_witness :
    countCourse ((createSchedule (fun _ => false)
      ((createSchedule (fun _ => false) emptyDb "u@x.com" none [freshCourse] {}).2)
      "u@x.com" none [freshCourse] {}).2) "IT201" = 1 :=
  course_row_reused_across_calls (fun _ => false) (fun _ => false) emptyDb
    "u@x.com" "u@x.com" none none [freshCourse] [freshCourse] {} {}
    ⟨1, none, 4, 1⟩ ⟨2, none, 4, 1⟩
    ((createSchedule (fun _ => false) emptyDb "u@x.com" none [freshCourse] {}).2)
    ((createSchedule (fun _ => false)
      ((createSchedule (fun _ => false) emptyDb "u@x.com" none [freshCourse] {}).2)
      "u@x.com" none [freshCourse] {}).2)
    "IT201" rfl (by decide) (by decide) rfl rfl

/-- **C8.** For every store and schedule id, `deleteSchedule` followed by
`getScheduleDetails` on that id fails with the not-found error, and no
`ScheduleDetails` rows for the schedule remain (the cascade removes them). -/
theorem deleteSchedule_then_details_not_found (db : DB) (sid : Nat) :
    getScheduleDetails (deleteSchedule db sid) sid = .error scheduleNotFoundErr ∧
    countDetails (deleteSchedule db sid) sid = 0 := by
  constructor
  · have hnone : (deleteSchedule db sid).schedules.find?
        (fun s => s.scheduleId == sid) = none := by
      rw [List.find?_eq_none]
      intro s hs
      have hmem := (List.mem_filter.mp hs).2
      simp only [bne_iff_ne, ne_eq, decide_not] at hmem
      simpa using hmem
    simp [getScheduleDetails, hnone]
  · simp only [countDetails, deleteSchedule, List.length_eq_zero]
    rw [List.filter_eq_nil_iff]
    intro d hd
    have hmem := (List.mem_filter.mp hd).2
    simp only [bne_iff_ne, ne_eq, decide_not] at hmem
    simpa using hmem

/-- Two request elements sharing the course code `IT301` with different
credit values. -/
def dupCourseA : CourseInput := { courseCode := some "IT301", credits := some 3 }

/-- Second occurrence of `IT301` in the same request. -/
def dupCourseB : CourseInput :=
  { courseCode := some "IT301", credits := some 5, name := some "Other" }

/-- **C9.** When one successful `createSchedule` call's input list repeats a
previously-unseen course key: exactly one `Courses` row for that key exists
afterwards, one `ScheduleDetails` row is inserted per list element (so the new
schedule holds duplicate entries), and the stored `totalCredits` counts the
supplied credits once per occurrence. -/
theorem duplicate_codes_one_row_entry_per_element (fault : Nat → Bool)
    (db : DB) (idf : String) (nm : Option String) (cs : List CourseInput)
    (h : UserHints) (r : CreateResult) (db' : DB) (code : String)
    (hok : createSchedule fault db idf nm cs h = (.ok r, db'))
    (hzero : countCourse db code = 0) (hmem : code ∈ cs.map courseKey) :
    countCourse db' code = 1 ∧
    countDetails db' r.scheduleId = countDetails db r.scheduleId + cs.length ∧
    r.totalCredits = suppliedSum cs :=
  ⟨createSchedule_ok_countCourse_create fault db idf nm cs h r db' code hok
      hzero hmem,
   createSchedule_ok_countDetails fault db idf nm cs h r db' hok,
   (createSchedule_ok_schedules fault db idf nm cs h r db' hok).1⟩

/-- Witness for C9: a request listing `IT301` twice (3 and 5 credits) creates
one `Courses` row, two entries, and `totalCredits = 8`. -/
theorem duplicate_codes_one_row_entry_per_element_witness :
    countCourse ((createSchedule (fun _ => false) emptyDb "u@x.com" none
        [dupCourseA, dupCourseB] {}).2) "IT301" = 1 ∧
    countDetails ((createSchedule (fun _ => false) emptyDb "u@x.com" none
        [dupCourseA, dupCourseB] {}).2) 1 = countDetails emptyDb 1 + 2 ∧
    CreateResult.totalCredits ⟨1, none, 8, 2⟩ = suppliedSum [dupCourseA, dupCourseB] :=
  duplicate_codes_one_row_entry_per_element (fun _ => false) emptyDb "u@x.com"
    none [dupCourseA, dupCourseB] {} ⟨1, none, 8, 2⟩
    ((createSchedule (fun _ => false) emptyDb "u@x.com" none
      [dupCourseA, dupCourseB] {}).2)
    "IT301" rfl rfl (by decide)

/-- **C10.** For every user identifier not containing `'@'`,
`getUserSchedules` resolves with a successful empty list, whatever the store
holds: a non-email identifier is never resolved to a user. -/
theorem getUserSchedules_non_email_empty (db : DB) (idf : String)
    (h : strContainsChar idf '@' = false) :
    getUserSchedules db idf = .ok [] := by
  simp [getUserSchedules, h]

/-- Witness for C10: a numeric-style identifier on a populated store. -/
theorem getUserSchedules_non_email_empty_witness :
    strContainsChar "user-123" '@' = false ∧
    getUserSchedules witnessDb "user-123" = .ok [] :=
  ⟨rfl, getUserSchedules_non_email_empty witnessDb "user-123" rfl⟩
